import Mathlib

/-!
Verification of the `mutli_agent` fault-diagnosis orchestrator.

This file gives a shallow embedding of the Python sources under
`mutli_agent/` (plus the parts of `cl_agent/config.py` they import) and
proves, or refutes, the frozen specification claims about them.

Python values are modelled by the inductive `PyVal` (floats as exact
rationals), Python dicts by insertion-ordered association lists with
unique keys, and Python exceptions by `Except String`.
-/

/-- Model of a Python value as it occurs in this program: `None`, `bool`,
`int`, `float` (modelled as an exact rational), `str`, `list`, and
string-keyed `dict` (stored as an insertion-ordered association list). -/
inductive PyVal where
  | none : PyVal
  | bool : Bool → PyVal
  | int : Int → PyVal
  | float : Rat → PyVal
  | str : String → PyVal
  | list : List PyVal → PyVal
  | dict : List (String × PyVal) → PyVal

/-- A Python dict with string keys: insertion-ordered association list. -/
abbrev PyDict := List (String × PyVal)

namespace PyVal

/-- `d[k]` lookup returning `Option`: value at the first occurrence of `k`. -/
def dget (d : PyDict) (k : String) : Option PyVal :=
  match d with
  | [] => Option.none
  | (k', v) :: rest => if k' = k then Option.some v else dget rest k

/-- Python `d.get(k, default)`. -/
def dgetD (d : PyDict) (k : String) (dflt : PyVal) : PyVal :=
  (dget d k).getD dflt

/-- Python `k in d` (key membership). -/
def dmem (d : PyDict) (k : String) : Bool :=
  (dget d k).isSome

/-- Python `d[k] = v`: overwrite the value at the first occurrence of `k`
(keeping its position, as CPython dicts do), or append a new entry. -/
def dset (d : PyDict) (k : String) (v : PyVal) : PyDict :=
  match d with
  | [] => [(k, v)]
  | (k', v') :: rest =>
      if k' = k then (k', v) :: rest else (k', v') :: dset rest k v

end PyVal

namespace PyVal

/-- Decimal digit characters of a natural number. -/
def natDigits (n : Nat) : String := toString n

/-- Python `str(i)` for an `int`. -/
def intStr (n : Int) : String :=
  if n < 0 then "-" ++ natDigits n.natAbs else natDigits n.natAbs

/-- Fractional decimal digits of `r/den` (`r < den`), at most `fuel` digits.
Terminates exactly for the denominators `2^a * 5^b` that Python floats have. -/
def fracDigits : Nat → Nat → Nat → List Char
  | 0, _, _ => []
  | _ + 1, 0, _ => []
  | fuel + 1, r, den =>
      let r10 := r * 10
      (Char.ofNat (48 + r10 / den)) :: fracDigits fuel (r10 % den) den

/-- Python `str(f)` for a `float`, modelled on exact decimal expansion
(Python prints the shortest round-tripping decimal; for the decimal-valued
floats this program manipulates the two coincide). -/
def floatStr (q : Rat) : String :=
  let sign := if q < 0 then "-" else ""
  let n := q.num.natAbs
  let ip := n / q.den
  let frac := fracDigits 64 (n % q.den) q.den
  let fracS := if frac = [] then "0" else String.mk frac
  sign ++ natDigits ip ++ "." ++ fracS

mutual

/-- Python `repr(v)` (string quoting is simplified to plain quotes; no
escaping — the program never round-trips reprs). -/
def pyRepr : PyVal → String
  | .none => "None"
  | .bool b => if b then "True" else "False"
  | .int n => intStr n
  | .float q => floatStr q
  | .str s => "'" ++ s ++ "'"
  | .list xs => "[" ++ String.intercalate ", " (pyReprList xs) ++ "]"
  | .dict d => "\x7b" ++ String.intercalate ", " (pyReprDict d) ++ "\x7d"

def pyReprList : List PyVal → List String
  | [] => []
  | x :: xs => pyRepr x :: pyReprList xs

def pyReprDict : List (String × PyVal) → List String
  | [] => []
  | (k, v) :: rest => ("'" ++ k ++ "': " ++ pyRepr v) :: pyReprDict rest

end

/-- Python `str(v)`. -/
def pyStr : PyVal → String
  | .str s => s
  | v => pyRepr v

/-- Python truthiness (`bool(v)`). -/
def pyTruthy : PyVal → Bool
  | .none => false
  | .bool b => b
  | .int n => n ≠ 0
  | .float q => q ≠ 0
  | .str s => s ≠ ""
  | .list xs => ¬ xs.isEmpty
  | .dict d => ¬ d.isEmpty

/-- The numeric (`int`/`float`/`bool`) reading of a value, as a rational. -/
def asNum : PyVal → Option Rat
  | .int n => Option.some (n : Rat)
  | .float q => Option.some q
  | .bool b => Option.some (if b then 1 else 0)
  | _ => Option.none

/-- Python `x == y` restricted to the shapes this program compares
(cross-type numeric equality; everything non-numeric compares structurally
within its own type and is `False` across types). -/
def pyEqV (a b : PyVal) : Bool :=
  match asNum a, asNum b with
  | Option.some x, Option.some y => x = y
  | _, _ =>
      match a, b with
      | .none, .none => true
      | .str x, .str y => x = y
      | _, _ => false

/-- Python `x == s` for a string literal `s` (as in `parsed.get("action")
== "call_tool"`): true only for the equal `str`. -/
def eqStr (v : PyVal) (s : String) : Bool :=
  match v with
  | .str t => t = s
  | _ => false

/-- Python `x + y`: numeric addition (any mix of `int`/`float`/`bool`),
sequence concatenation for `str`/`list`; anything else raises `TypeError`. -/
def pyAdd (a b : PyVal) : Except String PyVal :=
  match a, b with
  | .int x, .int y => .ok (.int (x + y))
  | .bool x, .int y => .ok (.int ((if x then 1 else 0) + y))
  | .int x, .bool y => .ok (.int (x + (if y then 1 else 0)))
  | .bool x, .bool y => .ok (.int ((if x then 1 else 0) + (if y then 1 else 0)))
  | .float x, .float y => .ok (.float (x + y))
  | .float x, .int y => .ok (.float (x + y))
  | .int x, .float y => .ok (.float (x + y))
  | .float x, .bool y => .ok (.float (x + (if y then 1 else 0)))
  | .bool x, .float y => .ok (.float ((if x then 1 else 0) + y))
  | .str x, .str y => .ok (.str (x ++ y))
  | .list x, .list y => .ok (.list (x ++ y))
  | _, _ => .error "TypeError: unsupported operand type(s) for +"

/-- Python `x > y`: numeric comparison (any mix of `int`/`float`/`bool`),
lexicographic for `str`/`str`; other mixes raise `TypeError`. -/
def pyGt (a b : PyVal) : Except String Bool :=
  match asNum a, asNum b with
  | Option.some x, Option.some y => .ok (decide (y < x))
  | _, _ =>
      match a, b with
      | .str x, .str y => .ok (decide (y < x))
      | _, _ => .error "TypeError: unsupported comparison"

/-- Python `x < y` (same domain as `pyGt`). -/
def pyLt (a b : PyVal) : Except String Bool :=
  match asNum a, asNum b with
  | Option.some x, Option.some y => .ok (decide (x < y))
  | _, _ =>
      match a, b with
      | .str x, .str y => .ok (decide (x < y))
      | _, _ => .error "TypeError: unsupported comparison"

end PyVal

namespace PyVal

/-- Python `x * y` for the one use in this program (`raw_value * 1024**3`):
numeric product, or sequence replication when one side is an `int`. -/
def pyMul (a b : PyVal) : Except String PyVal :=
  match a, b with
  | .int x, .int y => .ok (.int (x * y))
  | .bool x, .int y => .ok (.int ((if x then 1 else 0) * y))
  | .int x, .bool y => .ok (.int (x * (if y then 1 else 0)))
  | .bool x, .bool y => .ok (.int ((if x then 1 else 0) * (if y then 1 else 0)))
  | .float x, .float y => .ok (.float (x * y))
  | .float x, .int y => .ok (.float (x * y))
  | .int x, .float y => .ok (.float (x * y))
  | .float x, .bool y => .ok (.float (x * (if y then 1 else 0)))
  | .bool x, .float y => .ok (.float ((if x then 1 else 0) * y))
  | .str s, .int n => .ok (.str (String.join (List.replicate n.toNat s)))
  | .int n, .str s => .ok (.str (String.join (List.replicate n.toNat s)))
  | .list l, .int n => .ok (.list (List.flatten (List.replicate n.toNat l)))
  | .int n, .list l => .ok (.list (List.flatten (List.replicate n.toNat l)))
  | _, _ => .error "TypeError: unsupported operand type(s) for *"

/-- Python `x - y`: numeric only. -/
def pySub (a b : PyVal) : Except String PyVal :=
  match asNum a, asNum b with
  | Option.some x, Option.some y =>
      match a, b with
      | .float _, _ => .ok (.float (x - y))
      | _, .float _ => .ok (.float (x - y))
      | _, _ => .ok (.int (x - y).num)
  | _, _ => .error "TypeError: unsupported operand type(s) for -"

/-- Python `x / y`: true division, always a `float`; division by zero
raises `ZeroDivisionError`. -/
def pyDiv (a b : PyVal) : Except String PyVal :=
  match asNum a, asNum b with
  | Option.some x, Option.some y =>
      if y = 0 then .error "ZeroDivisionError: division by zero"
      else .ok (.float (x / y))
  | _, _ => .error "TypeError: unsupported operand type(s) for /"

/-- Parse the digits of a nonempty decimal string. -/
def digitsToNat : List Char → Option Nat
  | [] => Option.none
  | cs =>
      if cs.all Char.isDigit then
        Option.some (cs.foldl (fun acc c => acc * 10 + (c.toNat - 48)) 0)
      else Option.none

/-- Parse a Python float literal string: optional sign, then
`digits[.digits][e[sign]digits]` or `.digits[e...]` (the forms this
program can meet; `inf`/`nan`/underscores are not modelled). -/
def parseFloatLit (s : String) : Option Rat := do
  let cs := (s.data.dropWhile (fun c => c.isWhitespace)).reverse.dropWhile
      (fun c => c.isWhitespace) |>.reverse
  let (sign, cs) :=
    match cs with
    | '-' :: rest => ((-1 : Rat), rest)
    | '+' :: rest => ((1 : Rat), rest)
    | _ => ((1 : Rat), cs)
  let ip := cs.takeWhile Char.isDigit
  let cs := cs.drop ip.length
  let (fp, cs) :=
    match cs with
    | '.' :: rest =>
        let fp := rest.takeWhile Char.isDigit
        (fp, rest.drop fp.length)
    | _ => ([], cs)
  if ip = [] ∧ fp = [] then failure
  let (expSign, expDigits, cs) ←
    match cs with
    | 'e' :: rest | 'E' :: rest =>
        let (es, rest) :=
          match rest with
          | '-' :: r => ((-1 : Int), r)
          | '+' :: r => ((1 : Int), r)
          | _ => ((1 : Int), rest)
        let ed := rest.takeWhile Char.isDigit
        if ed = [] then Option.none
        else Option.some (es, ed, rest.drop ed.length)
    | _ => Option.some ((1 : Int), ['0'], cs)
  if cs ≠ [] then failure
  let ipn ← if ip = [] then Option.some 0 else digitsToNat ip
  let fpn ← if fp = [] then Option.some 0 else digitsToNat fp
  let expn ← digitsToNat expDigits
  let mantissa : Rat := (ipn : Rat) + (fpn : Rat) / ((10 : Rat) ^ fp.length)
  let exponent : Rat :=
    if expSign < 0 then 1 / ((10 : Rat) ^ expn) else (10 : Rat) ^ expn
  pure (sign * mantissa * exponent)

/-- Python `float(v)`: numbers and booleans convert, numeric strings are
parsed (`ValueError` otherwise), everything else raises `TypeError`. -/
def pyFloat (v : PyVal) : Except String Rat :=
  match v with
  | .int n => .ok (n : Rat)
  | .float q => .ok q
  | .bool b => .ok (if b then 1 else 0)
  | .str s =>
      match parseFloatLit s with
      | Option.some q => .ok q
      | Option.none => .error ("ValueError: could not convert string to float: " ++ s)
  | _ => .error "TypeError: float() argument must be a string or a real number"

/-- Contiguous-substring test on character lists. -/
def charsContain (hay needle : List Char) : Bool :=
  match hay with
  | [] => needle.isEmpty
  | _ :: t => needle.isPrefixOf hay || charsContain t needle

/-- Python `k in v` for a string `k`: key membership for dicts, element
equality for lists, substring for strings; `TypeError` otherwise. -/
def pyIn (k : String) (v : PyVal) : Except String Bool :=
  match v with
  | .dict d => .ok (dmem d k)
  | .list xs => .ok (xs.any (fun x => eqStr x k))
  | .str s => .ok (charsContain s.data k.data)
  | _ => .error "TypeError: argument of type is not iterable"

/-- Python `v.get(k, dflt)`: only dicts have `.get`; anything else raises
`AttributeError`. -/
def pyGetAttrD (v : PyVal) (k : String) (dflt : PyVal) : Except String PyVal :=
  match v with
  | .dict d => .ok (dgetD d k dflt)
  | _ => .error "AttributeError: object has no attribute get"

/-- Python `v[k]` for a string key: dict lookup (`KeyError` when absent);
any other receiver raises `TypeError`. -/
def pyIndex (v : PyVal) (k : String) : Except String PyVal :=
  match v with
  | .dict d =>
      match dget d k with
      | Option.some x => .ok x
      | Option.none => .error ("KeyError: " ++ k)
  | _ => .error "TypeError: value is not subscriptable with a str"

end PyVal

namespace PyJson

open PyVal

/-- The two brace characters (named, to keep them out of literals). -/
def lbrace : Char := Char.ofNat 123

def rbrace : Char := Char.ofNat 125

/-- JSON insignificant whitespace. -/
def skipWs (cs : List Char) : List Char :=
  cs.dropWhile (fun c => c = ' ' || c = '\t' || c = '\n' || c = '\r')

/-- Hex digit value. -/
def hexVal (c : Char) : Option Nat :=
  if '0' ≤ c ∧ c ≤ '9' then Option.some (c.toNat - 48)
  else if 'a' ≤ c ∧ c ≤ 'f' then Option.some (c.toNat - 87)
  else if 'A' ≤ c ∧ c ≤ 'F' then Option.some (c.toNat - 55)
  else Option.none

/-- Body of a JSON string after the opening quote: returns the decoded
characters and the remainder after the closing quote. -/
def parseStrChars : Nat → List Char → Option (List Char × List Char)
  | 0, _ => Option.none
  | _ + 1, [] => Option.none
  | fuel + 1, c :: rest =>
      if c = '"' then Option.some ([], rest)
      else if c = '\\' then
        match rest with
        | [] => Option.none
        | e :: rest' =>
            let dec : Option (Char × List Char) :=
              if e = '"' ∨ e = '\\' ∨ e = '/' then Option.some (e, rest')
              else if e = 'n' then Option.some ('\n', rest')
              else if e = 't' then Option.some ('\t', rest')
              else if e = 'r' then Option.some ('\r', rest')
              else if e = 'b' then Option.some (Char.ofNat 8, rest')
              else if e = 'f' then Option.some (Char.ofNat 12, rest')
              else if e = 'u' then
                match rest' with
                | h1 :: h2 :: h3 :: h4 :: rest'' =>
                    match hexVal h1, hexVal h2, hexVal h3, hexVal h4 with
                    | Option.some a, Option.some b, Option.some c', Option.some d =>
                        Option.some (Char.ofNat (((a * 16 + b) * 16 + c') * 16 + d), rest'')
                    | _, _, _, _ => Option.none
                | _ => Option.none
              else Option.none
            match dec with
            | Option.some (ch, rem) =>
                (parseStrChars fuel rem).map (fun p => (ch :: p.1, p.2))
            | Option.none => Option.none
      else if c.toNat < 32 then Option.none
      else (parseStrChars fuel rest).map (fun p => (c :: p.1, p.2))

/-- A JSON number: `-?int frac? exp?`; yields a Python `int` when neither
fraction nor exponent is present, otherwise a `float`. -/
def parseNum (cs : List Char) : Option (PyVal × List Char) :=
  let (neg, cs₁) :=
    match cs with
    | '-' :: rest => (true, rest)
    | _ => (false, cs)
  let ip := cs₁.takeWhile Char.isDigit
  if ip.isEmpty then Option.none
  else if ip.length > 1 ∧ ip.headD '0' = '0' then Option.none
  else
    let cs₂ := cs₁.drop ip.length
    let ipn := ip.foldl (fun acc c => acc * 10 + (c.toNat - 48)) 0
    let (hasFrac, fp, cs₃) :=
      match cs₂ with
      | '.' :: rest =>
          let fp := rest.takeWhile Char.isDigit
          (true, fp, rest.drop fp.length)
      | _ => (false, [], cs₂)
    if hasFrac ∧ fp.isEmpty then Option.none
    else
      let fpn := fp.foldl (fun acc c => acc * 10 + (c.toNat - 48)) 0
      let expRes : Option (Bool × Int × List Char) :=
        match cs₃ with
        | 'e' :: rest | 'E' :: rest =>
            let (esign, rest') :=
              match rest with
              | '-' :: r => ((-1 : Int), r)
              | '+' :: r => ((1 : Int), r)
              | _ => ((1 : Int), rest)
            let ed := rest'.takeWhile Char.isDigit
            if ed.isEmpty then Option.none
            else
              let edn : Int := ed.foldl (fun acc c => acc * 10 + (c.toNat - 48)) 0
              Option.some (true, esign * edn, rest'.drop ed.length)
        | _ => Option.some (false, 0, cs₃)
      match expRes with
      | Option.none => Option.none
      | Option.some (hasExp, expo, cs₄) =>
          let sign : Rat := if neg then -1 else 1
          if hasFrac ∨ hasExp then
            let mant : Rat := (ipn : Rat) + (fpn : Rat) / ((10 : Rat) ^ fp.length)
            let scaled : Rat :=
              if expo < 0 then mant / ((10 : Rat) ^ expo.natAbs)
              else mant * ((10 : Rat) ^ expo.toNat)
            Option.some (.float (sign * scaled), cs₄)
          else
            Option.some (.int (if neg then -(ipn : Int) else (ipn : Int)), cs₄)

mutual

/-- One JSON value (fuel-indexed recursive-descent parser). -/
def parseJVal : Nat → List Char → Option (PyVal × List Char)
  | 0, _ => Option.none
  | fuel + 1, cs =>
      match skipWs cs with
      | 'n' :: 'u' :: 'l' :: 'l' :: rest => Option.some (.none, rest)
      | 't' :: 'r' :: 'u' :: 'e' :: rest => Option.some (.bool true, rest)
      | 'f' :: 'a' :: 'l' :: 's' :: 'e' :: rest => Option.some (.bool false, rest)
      | [] => Option.none
      | c :: rest =>
          if c = '"' then
            (parseStrChars (rest.length + 1) rest).map
              (fun p => (.str (String.mk p.1), p.2))
          else if c = '[' then
            match skipWs rest with
            | ']' :: r => Option.some (.list [], r)
            | cs' => parseArrItems fuel cs' []
          else if c = lbrace then
            match skipWs rest with
            | c' :: r => if c' = rbrace then Option.some (.dict [], r)
                         else parseObjItems fuel (c' :: r) []
            | [] => Option.none
          else parseNum (c :: rest)

/-- Elements of a JSON array after the first element's start. -/
def parseArrItems : Nat → List Char → List PyVal → Option (PyVal × List Char)
  | 0, _, _ => Option.none
  | fuel + 1, cs, acc =>
      match parseJVal fuel cs with
      | Option.none => Option.none
      | Option.some (v, rest) =>
          match skipWs rest with
          | ',' :: r => parseArrItems fuel r (acc ++ [v])
          | ']' :: r => Option.some (.list (acc ++ [v]), r)
          | _ => Option.none

/-- Members of a JSON object after the opening brace (duplicate keys:
the later value wins, at the first occurrence's position, as in CPython). -/
def parseObjItems : Nat → List Char → PyDict → Option (PyVal × List Char)
  | 0, _, _ => Option.none
  | fuel + 1, cs, acc =>
      match skipWs cs with
      | '"' :: rest =>
          match parseStrChars (rest.length + 1) rest with
          | Option.none => Option.none
          | Option.some (kcs, rest') =>
              match skipWs rest' with
              | ':' :: rest'' =>
                  match parseJVal fuel rest'' with
                  | Option.none => Option.none
                  | Option.some (v, rest''') =>
                      let acc' := dset acc (String.mk kcs) v
                      match skipWs rest''' with
                      | ',' :: r => parseObjItems fuel r acc'
                      | c :: r => if c = rbrace then Option.some (.dict acc', r)
                                  else Option.none
                      | [] => Option.none
              | _ => Option.none
      | _ => Option.none

end

/-- Python `json.loads`: parse one JSON document, requiring only
whitespace after it; `Option.none` models `json.JSONDecodeError`. -/
def jsonLoads (s : String) : Option PyVal :=
  match parseJVal (s.length + 2) s.data with
  | Option.some (v, rest) => if (skipWs rest).isEmpty then Option.some v else Option.none
  | Option.none => Option.none

end PyJson

namespace MultiAgent

open PyVal PyJson

/-- The whitespace set of Python `str.strip()` (ASCII part). -/
def pyWs (c : Char) : Bool :=
  c = ' ' || c = '\t' || c = '\n' || c = '\r' || c = Char.ofNat 11 || c = Char.ofNat 12

/-- Python `s.strip()` on a character list. -/
def stripChars (cs : List Char) : List Char :=
  ((cs.dropWhile pyWs).reverse.dropWhile pyWs).reverse

/-- The markdown-fence stripping both `FaultClassifierAgent.parse_output`
and `DiscussionAgent.parse_output` perform before `json.loads`
(classifier.py lines 140-147, discussion.py lines 165-172). -/
def stripFences (s : String) : String :=
  let cs := stripChars s.data
  let cs :=
    if List.isPrefixOf "```json".data cs then cs.drop 7
    else if List.isPrefixOf "```".data cs then cs.drop 3
    else cs
  let cs := if List.isPrefixOf "```".data.reverse cs.reverse then
              cs.take (cs.length - 3)
            else cs
  String.mk (stripChars cs)

/-- `re.search(r'\x7b.*\x7d', s, re.DOTALL)`: the greedy match runs from
the first opening brace to the last closing brace after it. -/
def braceSpan (s : String) : Option String :=
  let cs := s.data
  match cs.findIdx? (· = lbrace) with
  | Option.none => Option.none
  | Option.some i =>
      let after := cs.drop i
      match after.reverse.findIdx? (· = rbrace) with
      | Option.none => Option.none
      | Option.some jrev => Option.some (String.mk (after.take (after.length - jrev)))

/-- `re.search(r'(\d+)', s)`: the first maximal digit run, as a number. -/
def firstDigitRun (s : String) : Option Nat :=
  match (s.data.dropWhile (fun c => ¬ c.isDigit)).takeWhile Char.isDigit with
  | [] => Option.none
  | ds => Option.some (ds.foldl (fun acc c => acc * 10 + (c.toNat - 48)) 0)

/-- The `fault_type → category` content of `FAULT_TYPE_LIBRARY`
(cl_agent/config.py lines 229-540), in dict insertion order. -/
def faultTypeCategories : List (String × String) :=
  [("datanode_down", "hdfs"),
   ("namenode_safemode", "hdfs"),
   ("cluster_id_mismatch", "hdfs"),
   ("resourcemanager_down", "yarn"),
   ("nodemanager_down", "yarn"),
   ("yarn_config_error", "yarn"),
   ("mapreduce_memory_insufficient", "mapreduce"),
   ("mapreduce_disk_insufficient", "mapreduce"),
   ("mapreduce_shuffle_failed", "mapreduce"),
   ("mapreduce_task_timeout", "mapreduce")]

/-- The keys of `FAULT_TYPE_LIBRARY`. -/
def faultTypeKeys : List String := faultTypeCategories.map Prod.fst

/-- Primary experts per category (`ExpertSelector._build_fault_expert_mapping`). -/
def primaryFor (category : String) : List String :=
  if category = "hdfs" then ["hdfs_expert"]
  else if category = "yarn" then ["yarn_expert"]
  else if category = "mapreduce" then ["mapreduce_expert"]
  else ["generic_expert"]

/-- Related experts per fault type (`ExpertSelector._build_fault_expert_mapping`). -/
def relatedFor (ft : String) : List String :=
  if ft = "datanode_down" then ["network_expert"]
  else if ft = "mapreduce_memory_insufficient" ∨ ft = "mapreduce_disk_insufficient" then
    ["yarn_expert"]
  else if ft = "yarn_config_error" then ["network_expert"]
  else []

/-- `ExpertSelector.fault_expert_mapping`: fault type → (primary, related). -/
def faultExpertMapping : List (String × (List String × List String)) :=
  faultTypeCategories.map (fun p => (p.1, (primaryFor p.2, relatedFor p.1)))

/-- `list(dict.fromkeys(xs))`: de-duplication keeping first occurrences. -/
def dedupKeepFirst (xs : List String) : List String :=
  xs.foldl (fun acc x => if x ∈ acc then acc else acc ++ [x]) []

/-- `ExpertSelector.select_experts` (expert_selector.py lines 78-104). -/
def selectExperts (faultType : String) (includeRelated : Bool) : List String :=
  match faultExpertMapping.lookup faultType with
  | Option.none => ["generic_expert"]
  | Option.some (primary, related) =>
      dedupKeepFirst (if includeRelated then primary ++ related else primary)

/-- The degraded classification returned when every parse attempt fails
(classifier.py lines 190-196). The `reasoning` text embeds CPython's
`JSONDecodeError` message, abstracted here to a fixed placeholder. -/
def classifierDefault : PyDict :=
  [("fault_type", .str "unknown"),
   ("confidence", .float 0.0),
   ("category", .str "generic"),
   ("reasoning", .str "解析失败: Expecting value")]

/-- The fallback's use of the re-extracted JSON (classifier.py lines
179-184): a decoded object is returned raw (unvalidated); any failure of
the nested `json.loads` is swallowed by the bare `except` and yields the
default. A `\x7b...\x7d` span can only decode to an object, so the
non-dict arms are unreachable. -/
def fallbackOfLoaded : Option PyVal → PyDict
  | Option.some (.dict d) => d
  | _ => classifierDefault

/-- The `except json.JSONDecodeError` handler of
`FaultClassifierAgent.parse_output` (classifier.py lines 176-196):
brace-span re-extraction, then the default. -/
def classifierFallback (r : String) : PyDict :=
  match braceSpan r with
  | Option.some sub => fallbackOfLoaded (jsonLoads sub)
  | Option.none => classifierDefault

/-- `FaultClassifierAgent.parse_output` (classifier.py lines 127-197).
`Except.error` models an exception escaping the method: only
`json.JSONDecodeError` is caught there, so the `ValueError` raised for a
decoded object without `fault_type`, and the `TypeError`/`ValueError`
arising from non-object JSON or a non-numeric `confidence`, propagate. -/
def classifierParse (response : String) : Except String PyDict :=
  let r := stripFences response
  match jsonLoads r with
  | Option.some (.dict d) =>
      if ¬ dmem d "fault_type" then .error "ValueError: 缺少必需字段: fault_type"
      else
        let d₁ := if dmem d "confidence" then d else dset d "confidence" (.float 0.5)
        let catv : Except String PyVal :=
          if dmem d₁ "category" then .ok (dgetD d₁ "category" .none)
          else
            match dget d₁ "fault_type" with
            | Option.some (.str ft) =>
                match faultTypeCategories.lookup ft with
                | Option.some cat => .ok (.str cat)
                | Option.none => .ok (.str "generic")
            | Option.some (.list _) => .error "TypeError: unhashable type"
            | Option.some (.dict _) => .error "TypeError: unhashable type"
            | _ => .ok (.str "generic")
        match catv with
        | .error e => .error e
        | .ok cat =>
            match pyFloat (dgetD d₁ "confidence" .none) with
            | .error e => .error e
            | .ok q =>
                .ok [("fault_type", dgetD d₁ "fault_type" .none),
                     ("confidence", .float q),
                     ("category", cat),
                     ("related_faults", dgetD d₁ "related_faults" .none),
                     ("reasoning", dgetD d₁ "reasoning" .none)]
  | Option.some (.str s) =>
      -- `"fault_type" not in <str>` is a substring test; absence raises the
      -- ValueError, presence fails later (item assignment / str indexing).
      if ¬ charsContain s.data "fault_type".data then
        .error "ValueError: 缺少必需字段: fault_type"
      else .error "TypeError: str object does not support item assignment"
  | Option.some (.list xs) =>
      if ¬ xs.any (fun x => eqStr x "fault_type") then
        .error "ValueError: 缺少必需字段: fault_type"
      else .error "TypeError: list indices must be integers"
  | Option.some _ => .error "TypeError: argument of type is not iterable"
  | Option.none => .ok (classifierFallback r)

/-- The safe default `DiscussionAgent.parse_output` returns on JSON decode
failure (discussion.py lines 210-218). -/
def discussionDefault : PyDict :=
  [("consensus", .bool true),
   ("final_root_cause", .str "解析失败，请查看专家诊断结果"),
   ("final_evidence", .list [.str "解析失败"]),
   ("final_fix_steps", .list [.str "请参考各专家的诊断结果"]),
   ("confidence", .float 0.5),
   ("conflicts", .none),
   ("compound_faults", .none)]

/-- One step of the required-field backfill loop: `if field not in
result_dict: result_dict[field] = default`. -/
def backfillField (d : PyDict) (k : String) (v : PyVal) : PyDict :=
  if dmem d k then d else dset d k v

/-- The required-field backfill loop of `DiscussionAgent.parse_output`
(discussion.py lines 178-188), in the loop's field order. -/
def backfillDiscussion (d : PyDict) : PyDict :=
  backfillField
    (backfillField
      (backfillField
        (backfillField
          (backfillField d "consensus" (.bool true))
          "final_root_cause" (.str "未明确说明"))
        "final_evidence" (.list []))
      "final_fix_steps" (.list []))
    "confidence" (.float 0.8)

/-- `DiscussionAgent.parse_output` (discussion.py lines 152-218). Only
`json.JSONDecodeError` is caught; valid non-object JSON and a
non-convertible `confidence` raise out of the method (`Except.error`). -/
def discussionParse (response : String) : Except String PyDict :=
  let r := stripFences response
  match jsonLoads r with
  | Option.none => .ok discussionDefault
  | Option.some (.dict d₀) =>
      let d := backfillDiscussion d₀
      match pyFloat (dgetD d "confidence" (.float 0.8)) with
      | .error e => .error e
      | .ok q =>
          .ok [("consensus", .bool (pyTruthy (dgetD d "consensus" (.bool true)))),
               ("final_root_cause", .str (pyStr (dgetD d "final_root_cause" (.str "未明确说明")))),
               ("final_evidence", dgetD d "final_evidence" (.list [])),
               ("final_fix_steps", dgetD d "final_fix_steps" (.list [])),
               ("confidence", .float q),
               ("conflicts", dgetD d "conflicts" .none),
               ("compound_faults", dgetD d "compound_faults" .none),
               ("expert_agreement", dgetD d "expert_agreement" .none)]
  | Option.some (.str _) => .error "TypeError: str object does not support item assignment"
  | Option.some (.list _) => .error "TypeError: list indices must be integers"
  | Option.some _ => .error "TypeError: argument of type is not iterable"

end MultiAgent

namespace MultiAgent

open PyVal PyJson

/-- A registered tool: a callable from its (keyword-)arguments to a result;
`Except.error` models the callable raising. -/
abbrev ToolFn := PyVal → Except String PyVal

abbrev ToolRegistry := List (String × ToolFn)

/-- `BaseAgent._execute_tool` (base.py lines 67-91): unknown names raise
`ValueError`, a raising tool is re-raised wrapped in `RuntimeError`.
Nothing in `run` catches either. -/
def executeTool (tools : ToolRegistry) (toolName : PyVal) (args : PyVal) :
    Except String PyVal :=
  match toolName with
  | .str n =>
      match tools.lookup n with
      | Option.some f =>
          match f args with
          | .ok r => .ok r
          | .error e => .error ("RuntimeError: 工具 " ++ n ++ " 执行失败: " ++ e)
      | Option.none => .error ("ValueError: 未知工具: " ++ n)
  | v => .error ("ValueError: 未知工具: " ++ pyStr v)

/-- One concrete agent as `BaseAgent.run` sees it: its prompt builder, the
deterministic Model Gateway restricted to this agent (role, system prompt
and temperature are fixed per agent, so the response is a function of the
prompt alone), its output parser (which may raise), and its tool subset. -/
structure AgentSpec where
  buildPrompt : PyDict → String
  llm : String → String
  parseOutput : String → Except String PyDict
  tools : ToolRegistry

/-- Result of one `run()` invocation: its outcome (`Except.error` = an
exception escaping `run`), how many times `_execute_tool` was invoked, and
the `ToolCallResult` entries appended to the working input's
`tool_results` list. -/
structure RunOutcome where
  result : Except String PyDict
  invocations : Nat
  execLog : List PyVal

/-- The `while True` loop of `BaseAgent.run` (base.py lines 106-145).
`remaining = max_tool_calls - tool_call_count`; the source increments the
counter and returns the limit dict when `tool_call_count > max_tool_calls`,
which is exactly `remaining = 0` here. -/
def runLoop (A : AgentSpec) : Nat → PyDict → RunOutcome
  | remaining, cur =>
      let response := A.llm (A.buildPrompt cur)
      match A.parseOutput response with
      | .error e => ⟨.error e, 0, []⟩
      | .ok parsed =>
          if eqStr (dgetD parsed "action" .none) "call_tool" then
            match remaining with
            | 0 =>
                ⟨.ok [("error", .str "工具调用次数超限"),
                      ("last_response", .str response)], 0, []⟩
            | remaining' + 1 =>
                let toolName := dgetD parsed "tool" .none
                let toolArgs := dgetD parsed "args" (.dict [])
                match executeTool A.tools toolName toolArgs with
                | .error e => ⟨.error e, 1, []⟩
                | .ok r =>
                    let entry : PyVal :=
                      .dict [("tool", toolName), ("args", toolArgs), ("result", r)]
                    match dget cur "tool_results" with
                    | Option.some (.list xs) =>
                        let rest := runLoop A remaining'
                          (dset cur "tool_results" (.list (xs ++ [entry])))
                        ⟨rest.result, rest.invocations + 1, entry :: rest.execLog⟩
                    | Option.some _ =>
                        ⟨.error "AttributeError: object has no attribute append", 1, []⟩
                    | Option.none =>
                        let rest := runLoop A remaining'
                          (dset cur "tool_results" (.list [entry]))
                        ⟨rest.result, rest.invocations + 1, entry :: rest.execLog⟩
          else ⟨.ok parsed, 0, []⟩

/-- `BaseAgent.run(input_data, max_tool_calls=2)` (base.py lines 93-145);
`current_input = dict(input_data)` starts from the input's contents. -/
def runAgent (A : AgentSpec) (inputData : PyDict) (maxToolCalls : Nat := 2) :
    RunOutcome :=
  runLoop A maxToolCalls inputData

/-- Contents of the caller's `input_data` dict after a run, under CPython
aliasing: `dict(input_data)` shallow-copies, and the only mutation in
`run` is `tool_results.append(...)` on the list obtained from
`current_input.get("tool_results", [])` — which on the first iteration is
the caller's own list when the key pre-exists (and stays that same object
on later iterations). So a pre-existing `tool_results` list receives every
appended entry; every other key and value is untouched (no agent's
`build_prompt`/`parse_output` writes to `input_data`). -/
def inputAfterRun (inputData : PyDict) (execLog : List PyVal) : PyDict :=
  match dget inputData "tool_results" with
  | Option.some (.list xs) => dset inputData "tool_results" (.list (xs ++ execLog))
  | _ => inputData

/-- `FaultOrchestrator._call_expert` (orchestrator.py lines 126-162):
missing experts and any exception from `run` become `{expert_name, error}`
dicts; a successful result gets `expert_name` written into it. -/
def callExpert (experts : List (String × (PyDict → RunOutcome)))
    (expertName : String) (inputData : PyDict) : PyDict :=
  match experts.lookup expertName with
  | Option.none =>
      [("expert_name", .str expertName),
       ("error", .str ("专家 " ++ expertName ++ " 不存在"))]
  | Option.some agentRun =>
      match (agentRun inputData).result with
      | .ok r => dset r "expert_name" (.str expertName)
      | .error e => [("expert_name", .str expertName), ("error", .str e)]

/-- The valid-expert filter of `_diagnose_structured` (orchestrator.py
lines 265-268): keep results without an `"error"` key. -/
def validResults (expertResults : List PyDict) : List PyDict :=
  expertResults.filter (fun r => ¬ dmem r "error")

/-- The shared input handed to every expert (orchestrator.py lines
254-261). -/
def mkExpertInput (faultType logs metrics clusterState relatedFaults : PyVal)
    (userQuery : String) : PyDict :=
  [("fault_type", faultType),
   ("logs", logs),
   ("metrics", metrics),
   ("cluster_state", clusterState),
   ("related_faults", relatedFaults),
   ("user_query", .str userQuery)]

/-- The tail of `FaultOrchestrator._diagnose_structured` after the parallel
expert calls (orchestrator.py lines 262-303), parameterised by the already
collected classification, global context and (completion-ordered) expert
results, and by the Discussion Agent's run (whose exception, if any,
propagates and yields no report). -/
def diagnoseTail (classification : PyDict) (globalContext : PyDict)
    (expertResults : List PyDict) (discuss : PyDict → Except String PyDict) :
    Except String PyDict :=
  let faultType := dgetD classification "fault_type" (.str "unknown")
  let valid := validResults expertResults
  if valid.isEmpty then
    .ok [("error", .str "所有专家调用都失败了"),
         ("classification", .dict classification),
         ("expert_results", .list (expertResults.map .dict))]
  else
    let discussionInput : PyDict :=
      [("fault_type", faultType),
       ("expert_results", .list (valid.map .dict)),
       ("global_context", .dict globalContext)]
    match discuss discussionInput with
    | .error e => .error e
    | .ok discussionResult =>
        .ok [("classification", .dict classification),
             ("expert_diagnoses", .list (valid.map .dict)),
             ("discussion", .dict discussionResult),
             ("global_context",
              .dict [("timestamp", dgetD globalContext "timestamp" .none),
                     ("cluster_state", dgetD globalContext "cluster_state" (.dict []))])]

end MultiAgent

namespace MultiAgent

open PyVal PyJson

/-- Python `s[:500]` on the value under `diagnosis_text` (a string in this
pipeline). -/
def slice500 (v : PyVal) : String :=
  match v with
  | .str s => String.mk (s.data.take 500)
  | v => pyStr v

/-- The per-expert section of the discussion prompt (discussion.py lines
111-129); `idx` is the 1-based position from `enumerate(expert_results, 1)`. -/
def expertSection (idx : Nat) (er : PyDict) : List String :=
  let name := dgetD er "expert_name" (.str ("expert_" ++ toString idx))
  ["\n### " ++ pyStr name ++ " 的诊断"]
  ++ (match dget er "diagnosis_text" with
      | Option.some v => ["诊断文本：\n" ++ slice500 v ++ "..."]
      | Option.none => [])
  ++ (match dget er "root_cause" with
      | Option.some v => ["- 根本原因：" ++ pyStr v]
      | Option.none => [])
  ++ (match dget er "evidence" with
      | Option.some v => ["- 证据：" ++ pyStr v]
      | Option.none => [])
  ++ (match dget er "fix_steps" with
      | Option.some v => ["- 修复步骤：" ++ pyStr v]
      | Option.none => [])
  ++ (match dget er "confidence" with
      | Option.some v => ["- 置信度：" ++ pyStr v]
      | Option.none => [])
  ++ [""]

/-- `DiscussionAgent.build_prompt` (discussion.py lines 89-150). The
expert sections appear in the ORDER of the `expert_results` list. -/
def discussionBuildPrompt (inputData : PyDict) : String :=
  let faultType := dgetD inputData "fault_type" (.str "unknown")
  let expertResults : List PyDict :=
    match dgetD inputData "expert_results" (.list []) with
    | .list rs => rs.filterMap (fun v => match v with | .dict d => Option.some d | _ => Option.none)
    | _ => []
  let header := ["## 故障类型", "故障类型：" ++ pyStr faultType, "", "## 各专家诊断结果"]
  let sections :=
    (expertResults.enum.map (fun p => expertSection (p.1 + 1) p.2)).flatten
  let contextPart :=
    match dget inputData "global_context" with
    | Option.some gc =>
        if pyTruthy gc then
          match gc with
          | .dict c =>
              (match dget c "cluster_state" with
               | Option.some st =>
                   let live := match st with
                     | .dict sd =>
                         (match dgetD sd "datanode_count" (.dict []) with
                          | .dict dc => dgetD dc "live" (.int 0)
                          | _ => .int 0)
                     | _ => .int 0
                   let dead := match st with
                     | .dict sd =>
                         (match dgetD sd "datanode_count" (.dict []) with
                          | .dict dc => dgetD dc "dead" (.int 0)
                          | _ => .int 0)
                     | _ => .int 0
                   let status := match st with
                     | .dict sd => dgetD sd "hdfs_status" (.str "unknown")
                     | _ => .str "unknown"
                   ["## 全局上下文（参考）",
                    "- DataNode数量：存活 " ++ pyStr live ++ ", 离线 " ++ pyStr dead,
                    "- HDFS状态：" ++ pyStr status, ""]
               | Option.none => ["## 全局上下文（参考）", ""])
          | _ => ["## 全局上下文（参考）", ""]
        else []
    | Option.none => []
  let task := ["## 讨论任务", "请基于上述各专家的诊断结果，进行综合讨论：",
               "1. 检查专家意见是否一致", "2. 如果有冲突，识别冲突点",
               "3. 识别可能的联动故障", "4. 生成综合诊断报告（JSON格式）"]
  String.intercalate "\n" (header ++ sections ++ contextPart ++ task)

/-- The DiscussionAgent as run by the orchestrator: `build_prompt` and
`parse_output` from discussion.py, no tools, `max_tool_calls = 2`. -/
def discussionRun (llm : String → String) (inputData : PyDict) : Except String PyDict :=
  (runAgent ⟨discussionBuildPrompt, llm, discussionParse, []⟩ inputData).result

end MultiAgent

namespace MultiAgent

open PyVal PyJson

/-- A successful match of the confidence regexes in
`HDFSExpertAgent._extract_confidence`: the captured group `(\d+\.?\d*)` is
one or more integer digits followed by an optional dot and further digits,
so every match denotes the nonnegative decimal below. -/
structure ConfMatch where
  d0 : Fin 10
  ds : List (Fin 10)
  fracDs : List (Fin 10)

/-- Integer value of a digit list. -/
def digitsVal (ds : List (Fin 10)) : Nat :=
  ds.foldl (fun a d => a * 10 + d.val) 0

/-- Value of the fractional digits (`0.d₁d₂…`). -/
def fracVal (ds : List (Fin 10)) : Rat :=
  ds.foldr (fun d acc => ((d.val : Rat) + acc) / 10) 0

/-- The number `float(match.group(1))` produces. -/
def ConfMatch.val (m : ConfMatch) : Rat :=
  (digitsVal (m.d0 :: m.ds) : Rat) + fracVal m.fracDs

/-- `HDFSExpertAgent._extract_confidence` (hdfs_expert.py lines 289-311)
as a function of the regex-match outcome: `Option.none` means no pattern
matched the text. Numbers above 1 are read as percentages, the result is
clamped to `[0, 1]`, and the no-match default is `0.8`. -/
def extractConfidence : Option ConfMatch → Rat
  | Option.none => 0.8
  | Option.some m =>
      let c := m.val
      let c := if 1 < c then c / 100 else c
      min 1 (max 0 c)

/-- The `live_datanodes` / `dead_datanodes` extraction block of
`ContextCollector._extract_cluster_state` (context_collector.py lines
151-166; lines 168-183 repeat it verbatim for the dead count):
`heartbeat_value`, then `jmx_value`, then a numeric `value`, then the
first digit run of `str(value)`, else the initial `0`. -/
def extractCount (nnMetrics : PyVal) (key : String) : Except String PyVal := do
  let present ← pyIn key nnMetrics
  if present then
    let metric ← pyIndex nnMetrics key
    let hb ← pyIn "heartbeat_value" metric
    if hb then pyIndex metric "heartbeat_value"
    else
      let jm ← pyIn "jmx_value" metric
      if jm then pyIndex metric "jmx_value"
      else
        let v ← pyGetAttrD metric "value" .none
        match v with
        | .int _ => pure v
        | .float _ => pure v
        | .bool _ => pure v
        | _ =>
            let vs ← pyGetAttrD metric "value" (.str "0")
            match firstDigitRun (pyStr vs) with
            | Option.some n => pure (.int n)
            | Option.none => pure (.int 0)
  else pure (.int 0)

/-- The state returned when the NameNode block is skipped: the literal
initial `state` dict (context_collector.py lines 130-142). -/
def initialClusterState : PyDict :=
  [("datanode_count", .dict [("live", .int 0), ("dead", .int 0), ("total", .int 0)]),
   ("hdfs_status", .str "unknown"),
   ("storage", .dict [("total", .int 0), ("used", .int 0), ("remaining", .int 0)])]

/-- The HDFS status assignment (context_collector.py lines 189-195):
`degraded` when dead > 0; `healthy` when live > 0 and live == total; the
initial `"unknown"` otherwise (the `total == 0` elif re-assigns the same
`"unknown"`). -/
def hdfsStatusOf (live total : PyVal) (degraded : Bool) : Except String String :=
  if degraded then pure "degraded"
  else do
    let lv ← pyGt live (.int 0)
    if lv && pyEqV live total then pure "healthy" else pure "unknown"

/-- The `remaining_storage` block (context_collector.py lines 201-205):
`raw_value * 1024**3` when present and not `None`, else the initial `0`. -/
def remainingStorage (nnm : PyVal) : Except String PyVal := do
  let rs ← pyIn "remaining_storage" nnm
  if rs then
    let metric ← pyIndex nnm "remaining_storage"
    let hasRaw ← pyIn "raw_value" metric
    if hasRaw then
      let raw ← pyIndex metric "raw_value"
      match raw with
      | .none => pure (PyVal.int 0)
      | _ => pyMul raw (.int (1024 ^ 3))
    else pure (PyVal.int 0)
  else pure (PyVal.int 0)

/-- The `storage_usage` back-computation of (total, used)
(context_collector.py lines 208-218). -/
def storageTotals (nnm remaining : PyVal) : Except String (PyVal × PyVal) := do
  let su ← pyIn "storage_usage" nnm
  if su then
    let metric ← pyIndex nnm "storage_usage"
    let hasRaw ← pyIn "raw_value" metric
    if hasRaw then
      let usage ← pyIndex metric "raw_value"
      let remPos ← pyGt remaining (.int 0)
      if remPos then
        let usagePos ← pyGt usage (.int 0)
        if usagePos then
          let lt100 ← pyLt usage (.int 100)
          if lt100 then
            let frac ← pyDiv usage (.int 100)
            let denom ← pySub (.int 1) frac
            let tot ← pyDiv remaining denom
            let used ← pySub tot remaining
            pure (tot, used)
          else pure (PyVal.int 0, PyVal.int 0)
        else pure (PyVal.int 0, PyVal.int 0)
      else pure (PyVal.int 0, PyVal.int 0)
    else pure (PyVal.int 0, PyVal.int 0)
  else pure (PyVal.int 0, PyVal.int 0)

/-- The body of the `if "namenode" in metrics and ... != "error"` block of
`_extract_cluster_state` (context_collector.py lines 145-218), given the
`metrics["namenode"]` value. -/
def extractFromNN (nn : PyVal) : Except String PyDict := do
  let status ← pyGetAttrD nn "status" .none
  if eqStr status "error" then pure initialClusterState
  else do
    let nnm ← pyGetAttrD nn "metrics" (.dict [])
    let live ← extractCount nnm "live_datanodes"
    let dead ← extractCount nnm "dead_datanodes"
    let total ← pyAdd live dead
    let degraded ← pyGt dead (.int 0)
    let hdfs ← hdfsStatusOf live total degraded
    let remaining ← remainingStorage nnm
    let storagePair ← storageTotals nnm remaining
    pure [("datanode_count", .dict [("live", live), ("dead", dead), ("total", total)]),
          ("hdfs_status", .str hdfs),
          ("storage", .dict [("total", storagePair.1), ("used", storagePair.2),
                             ("remaining", remaining)])]

/-- `ContextCollector._extract_cluster_state` (context_collector.py lines
120-220). `Except.error` models an exception escaping the method (its
caller catches it and degrades `cluster_state` to an empty dict). -/
def extractClusterState (metrics : PyDict) : Except String PyDict :=
  match dget metrics "namenode" with
  | Option.none => pure initialClusterState
  | Option.some nn => extractFromNN nn

end MultiAgent

namespace MultiAgent

open PyVal PyJson

/-- Tool executions in one run never exceed the remaining budget. -/
theorem runLoop_invocations_le (A : AgentSpec) :
    ∀ (n : Nat) (cur : PyDict), (runLoop A n cur).invocations ≤ n := by
  intro n
  induction n with
  | zero =>
      intro cur
      cases h : A.parseOutput (A.llm (A.buildPrompt cur)) with
      | error e => simp [runLoop, h]
      | ok parsed =>
          simp only [runLoop, h]
          split <;> simp
  | succ n ih =>
      intro cur
      rw [runLoop]
      cases h : A.parseOutput (A.llm (A.buildPrompt cur)) with
      | error e => simp
      | ok parsed =>
          simp only []
          split
          · cases hex : executeTool A.tools (dgetD parsed "tool" PyVal.none)
                (dgetD parsed "args" (PyVal.dict [])) with
            | error e => simp
            | ok r =>
                simp only []
                cases hd : dget cur "tool_results" with
                | none => simp; exact ih _
                | some v =>
                    cases v <;> simp
                    exact ih _
          · simp

/-- An agent whose model response always parses to a request for a tool
that is not in its (empty) registry. -/
def c1Agent : AgentSpec :=
  ⟨fun _ => "prompt", fun _ => "response",
   fun _ => .ok [("action", .str "call_tool"), ("tool", .str "missing_tool")], []⟩

/-- C1, counterexample: when the parsed output requests a tool that is not
in the agent's registry, `BaseAgent.run` does NOT return a result-level
error dictionary — the `ValueError` raised by `_execute_tool` (base.py
line 79) escapes `run` (base.py line 132 has no try/except), modelled here
as the run's terminal outcome being `Except.error`, not `Except.ok`. -/
theorem run_toolfail_raises_cex :
    (runAgent c1Agent [] 2).result = .error "ValueError: 未知工具: missing_tool" := rfl

/-- C1, amended: the exception escaping `run` is caught one level up, in
`FaultOrchestrator._call_expert` (orchestrator.py lines 148-162), which
converts it into the result-level error dictionary
`{"expert_name": name, "error": str(e)}` — so tool-execution failure
surfaces as the terminal output of that expert's run at the orchestrator
boundary, not inside `BaseAgent.run` itself. -/
theorem call_expert_wraps_run_error (name : String) (agent : PyDict → RunOutcome)
    (inputData : PyDict) (e : String) (h : (agent inputData).result = .error e) :
    callExpert [(name, agent)] name inputData =
      [("expert_name", .str name), ("error", .str e)] := by
  simp [callExpert, List.lookup, h]

/-- C1, witness: the amended theorem applied to the unknown-tool agent. -/
theorem call_expert_wraps_run_error_witness :
    callExpert [("hdfs_expert", fun inp => runAgent c1Agent inp)] "hdfs_expert" [] =
      [("expert_name", .str "hdfs_expert"),
       ("error", .str "ValueError: 未知工具: missing_tool")] :=
  call_expert_wraps_run_error "hdfs_expert" (fun inp => runAgent c1Agent inp) [] _ rfl

/-- C2: in every `run()` invocation the number of `_execute_tool`
invocations is at most `max_tool_calls`; and in the loop state where the
budget is exhausted (`remaining = 0`, i.e. `tool_call_count =
max_tool_calls`), a model response parsed as one more tool-call request
makes `run` return the explicit limit-exceeded error dict at once — zero
further tool executions, no further loop iteration (base.py lines
122-128). -/
theorem run_tool_call_budget (A : AgentSpec) (inputData : PyDict)
    (maxToolCalls : Nat) (cur parsed : PyDict)
    (hp : A.parseOutput (A.llm (A.buildPrompt cur)) = .ok parsed)
    (ha : eqStr (dgetD parsed "action" .none) "call_tool" = true) :
    (runAgent A inputData maxToolCalls).invocations ≤ maxToolCalls ∧
    runLoop A 0 cur =
      ⟨.ok [("error", .str "工具调用次数超限"),
            ("last_response", .str (A.llm (A.buildPrompt cur)))], 0, []⟩ := by
  refine ⟨runLoop_invocations_le A maxToolCalls inputData, ?_⟩
  rw [runLoop, hp]
  simp [ha]

/-- An agent that requests the registered tool `t` on every model call. -/
def c2Agent : AgentSpec :=
  ⟨fun _ => "prompt", fun _ => "response",
   fun _ => .ok [("action", .str "call_tool"), ("tool", .str "t"), ("args", .dict [])],
   [("t", fun _ => .ok (.str "tool output"))]⟩

/-- C2, witness: the budget theorem at the always-requesting agent with
`max_tool_calls = 2` (Scenario D). -/
theorem run_tool_call_budget_witness :
    (runAgent c2Agent [] 2).invocations ≤ 2 ∧
    runLoop c2Agent 0 [] =
      ⟨.ok [("error", .str "工具调用次数超限"),
            ("last_response", .str (c2Agent.llm (c2Agent.buildPrompt [])))], 0, []⟩ :=
  run_tool_call_budget c2Agent [] 2 []
    [("action", .str "call_tool"), ("tool", .str "t"), ("args", .dict [])] rfl rfl

end MultiAgent

namespace MultiAgent

open PyVal PyJson

/-- Association-list lookup misses exactly the absent keys. -/
theorem lookup_none {β : Type} :
    ∀ (l : List (String × β)) (k : String),
      k ∉ l.map Prod.fst → l.lookup k = Option.none := by
  intro l k h
  induction l with
  | nil => rfl
  | cons p rest ih =>
      simp only [List.map_cons, List.mem_cons] at h
      push_neg at h
      cases p with
      | mk k' v =>
          simp only [List.lookup]
          have hne : (k == k') = false := by
            simp only at h
            exact beq_eq_false_iff_ne.mpr h.1
          rw [hne]
          exact ih h.2

/-- C3: `_diagnose_structured` short-circuits when no expert result is
valid — the returned report then carries the top-level error field and no
discussion — and every report that does contain a discussion lists at
least one expert diagnosis (orchestrator.py lines 264-297). -/
theorem diagnose_requires_valid_expert (classification gc : PyDict)
    (ers : List PyDict) (discuss : PyDict → Except String PyDict) (rep : PyDict)
    (h : diagnoseTail classification gc ers discuss = .ok rep) :
    (validResults ers = [] →
        dget rep "error" = Option.some (.str "所有专家调用都失败了") ∧
        dget rep "discussion" = Option.none) ∧
    (∀ d, dget rep "discussion" = Option.some d →
        ∃ l, dget rep "expert_diagnoses" = Option.some (.list l) ∧ 1 ≤ l.length) := by
  unfold diagnoseTail at h
  by_cases he : (validResults ers).isEmpty
  · simp only [he, if_true] at h
    cases h
    constructor
    · intro _
      constructor <;> simp [dget]
    · intro d hd
      simp [dget] at hd
  · simp only [he, if_false] at h
    cases hd : discuss [("fault_type", dgetD classification "fault_type" (.str "unknown")),
        ("expert_results", .list ((validResults ers).map .dict)),
        ("global_context", .dict gc)] with
    | error e => rw [hd] at h; cases h
    | ok dr =>
        rw [hd] at h
        cases h
        constructor
        · intro hv
          rw [hv] at he
          simp at he
        · intro d _
          refine ⟨(validResults ers).map .dict, by simp [dget], ?_⟩
          simp only [List.length_map]
          have hne : validResults ers ≠ [] := by
            intro hv; rw [hv] at he; simp at he
          exact Nat.one_le_iff_ne_zero.mpr
            (fun hz => hne (List.eq_nil_of_length_eq_zero hz))

/-- A classification result, a failed expert result, a valid expert
result, and a stub Discussion run, for concrete instantiations. -/
def c3Class : PyDict := [("fault_type", .str "datanode_down")]

def c3ErrExpert : PyDict := [("expert_name", .str "hdfs_expert"), ("error", .str "boom")]

def c3OkExpert : PyDict := [("expert_name", .str "hdfs_expert"), ("root_cause", .str "dn")]

def c3Discuss : PyDict → Except String PyDict := fun _ => .ok discussionDefault

/-- C3, witness: the short-circuit branch on an all-failed expert list
(Scenario E) and the discussion branch on a one-valid-expert list. -/
theorem diagnose_requires_valid_expert_witness :
    (∃ rep, diagnoseTail c3Class [] [c3ErrExpert] c3Discuss = .ok rep ∧
        dget rep "error" = Option.some (.str "所有专家调用都失败了") ∧
        dget rep "discussion" = Option.none) ∧
    (∃ rep l, diagnoseTail c3Class [] [c3OkExpert] c3Discuss = .ok rep ∧
        dget rep "expert_diagnoses" = Option.some (.list l) ∧ 1 ≤ l.length) := by
  constructor
  · exact ⟨_, rfl,
      (diagnose_requires_valid_expert c3Class [] [c3ErrExpert] c3Discuss _ rfl).1 rfl⟩
  · obtain ⟨l, hl, h1⟩ :=
      (diagnose_requires_valid_expert c3Class [] [c3OkExpert] c3Discuss _ rfl).2
        (.dict discussionDefault) rfl
    exact ⟨_, l, rfl, hl, h1⟩

/-- C7: an unknown fault type selects exactly `["generic_expert"]`, and a
known one selects its primary experts followed by its related experts,
de-duplicated keeping first (= primary) occurrences
(expert_selector.py lines 78-104). -/
theorem select_experts_spec (ft : String) :
    (ft ∉ faultTypeKeys → selectExperts ft true = ["generic_expert"]) ∧
    (∀ p r, faultExpertMapping.lookup ft = Option.some (p, r) →
        selectExperts ft true = dedupKeepFirst (p ++ r)) := by
  constructor
  · intro h
    have hk : faultExpertMapping.map Prod.fst = faultTypeKeys := rfl
    have hl : faultExpertMapping.lookup ft = Option.none :=
      lookup_none _ _ (hk ▸ h)
    simp [selectExperts, hl]
  · intro p r h
    simp [selectExperts, h]

/-- C7, witness: an out-of-taxonomy fault type, and `datanode_down`
(primary `hdfs_expert`, related `network_expert`). -/
theorem select_experts_spec_witness :
    ("weird_fault" ∉ faultTypeKeys ∧
     selectExperts "weird_fault" true = ["generic_expert"]) ∧
    (faultExpertMapping.lookup "datanode_down" =
        Option.some (["hdfs_expert"], ["network_expert"]) ∧
     selectExperts "datanode_down" true =
        dedupKeepFirst (["hdfs_expert"] ++ ["network_expert"])) := by
  refine ⟨⟨?_, (select_experts_spec "weird_fault").1 ?_⟩,
          rfl, (select_experts_spec "datanode_down").2 _ _ rfl⟩ <;> decide

/-- C8: the orchestrator's shared expert input (which never carries a
`tool_results` key, orchestrator.py lines 254-261) is left with exactly
the same keys and values after any number of expert `run()` invocations:
each run mutates only a pre-existing `tool_results` list of its input
(see `inputAfterRun`), and this input has none, so the fold over all
experts' post-run effects is the identity. -/
theorem context_not_mutated (agents : List AgentSpec) (maxCalls : Nat)
    (ft logs metrics cs rf : PyVal) (uq : String) :
    agents.foldl (fun inp A => inputAfterRun inp (runAgent A inp maxCalls).execLog)
      (mkExpertInput ft logs metrics cs rf uq) =
    mkExpertInput ft logs metrics cs rf uq := by
  induction agents with
  | nil => rfl
  | cons A rest ih =>
      have hstep : inputAfterRun (mkExpertInput ft logs metrics cs rf uq)
          (runAgent A (mkExpertInput ft logs metrics cs rf uq) maxCalls).execLog
          = mkExpertInput ft logs metrics cs rf uq := by
        simp [inputAfterRun, mkExpertInput, dget]
      simp only [List.foldl_cons, hstep, ih]

end MultiAgent

namespace MultiAgent

open PyVal PyJson

/-- C9: `HDFSExpertAgent._extract_confidence` always yields a value in
`[0, 1]` (and cannot raise: the captured group is always a valid float
literal): no match defaults to `0.8`, and a matched number above `1` is
divided by `100` and clamped (hdfs_expert.py lines 289-311). -/
theorem extract_confidence_in_unit (m : Option ConfMatch) :
    0 ≤ extractConfidence m ∧ extractConfidence m ≤ 1 ∧
    extractConfidence Option.none = 0.8 ∧
    (∀ l : ConfMatch, 1 < l.val →
        extractConfidence (Option.some l) = min 1 (max 0 (l.val / 100))) := by
  refine ⟨?_, ?_, rfl, ?_⟩
  · cases m with
    | none => norm_num [extractConfidence]
    | some l =>
        simp only [extractConfidence]
        exact le_min (by norm_num) (le_max_left _ _)
  · cases m with
    | none => norm_num [extractConfidence]
    | some l =>
        simp only [extractConfidence]
        exact min_le_left _ _
  · intro l h
    simp only [extractConfidence, if_pos h]

/-- The match for a text containing `置信度: 85%`. -/
def c9Match : ConfMatch := ⟨8, [5], []⟩

/-- C9, witness: the bounds at the match `85` (read as 85 %). -/
theorem extract_confidence_in_unit_witness :
    (0 ≤ extractConfidence (Option.some c9Match) ∧
     extractConfidence (Option.some c9Match) ≤ 1) ∧
    (1 : Rat) < c9Match.val ∧
    extractConfidence (Option.some c9Match) = min 1 (max 0 (c9Match.val / 100)) := by
  have h := extract_confidence_in_unit (Option.some c9Match)
  have hv : (1 : Rat) < c9Match.val := by
    norm_num [c9Match, ConfMatch.val, digitsVal, fracVal,
      show ((8 : Fin 10) : Nat) = 8 from rfl, show ((5 : Fin 10) : Nat) = 5 from rfl]
  exact ⟨⟨h.1, h.2.1⟩, hv, h.2.2.2 c9Match hv⟩

end MultiAgent

namespace MultiAgent

open PyVal PyJson

/-- C4, counterexample: on the response `{"confidence": 1}` — valid JSON,
so neither parsing attempt fails — `FaultClassifierAgent.parse_output`
raises: the `ValueError("缺少必需字段: fault_type")` of classifier.py line
154 is not a `json.JSONDecodeError`, so the `except` clause at line 176
does not catch it and it propagates out of `parse_output`. -/
theorem classifier_missing_fault_type_cex :
    classifierParse "\x7b\"confidence\": 1\x7d" =
      .error "ValueError: 缺少必需字段: fault_type" := rfl

/-- C4, amended: the no-raise guarantee holds on the JSON-decode-failure
path: whenever `json.loads` of the stripped response fails, `parse_output`
returns a dict (never raises) — the brace-span fallback's raw object when
that parses, and otherwise exactly the degraded
`{fault_type: "unknown", confidence: 0.0, category: "generic",
reasoning: <parse error>}` default.  (When the response is valid JSON the
method can raise, per the counterexample.) -/
theorem classifier_parse_fallback (s : String)
    (h : jsonLoads (stripFences s) = Option.none) :
    (∃ d, classifierParse s = .ok d) ∧
    ((∀ sub d, braceSpan (stripFences s) = Option.some sub →
        jsonLoads sub ≠ Option.some (.dict d)) →
      classifierParse s = .ok classifierDefault) := by
  simp only [classifierParse, h]
  refine ⟨⟨classifierFallback (stripFences s), rfl⟩, fun hall => ?_⟩
  suffices hd : classifierFallback (stripFences s) = classifierDefault by rw [hd]
  unfold classifierFallback
  cases hb : braceSpan (stripFences s) with
  | none => rfl
  | some sub =>
      show fallbackOfLoaded (jsonLoads sub) = classifierDefault
      cases hj : jsonLoads sub with
      | none => rfl
      | some v =>
          cases v with
          | dict d => exact absurd hj (hall sub d hb)
          | none => rfl
          | bool b => rfl
          | int n => rfl
          | float q => rfl
          | str t => rfl
          | list xs => rfl

/-- C4, witness: a plain-prose response with no braces takes the all-fail
path and yields exactly the default classification. -/
theorem classifier_parse_fallback_witness :
    jsonLoads (stripFences "no json at all") = Option.none ∧
    classifierParse "no json at all" = .ok classifierDefault := by
  refine ⟨rfl, (classifier_parse_fallback "no json at all" rfl).2 ?_⟩
  intro sub d hb
  rw [show braceSpan (stripFences "no json at all") = Option.none from rfl] at hb
  exact Option.noConfusion hb

end MultiAgent

namespace MultiAgent

open PyVal PyJson

/-- Setting a key makes it present with the written value. -/
theorem dget_dset_self (d : PyDict) (k : String) (v : PyVal) :
    dget (dset d k v) k = Option.some v := by
  induction d with
  | nil => simp [dset, dget]
  | cons p rest ih =>
      cases p with
      | mk k' v' =>
          by_cases hk : k' = k
          · simp [dset, dget, hk]
          · simp [dset, dget, hk, ih]

/-- Setting a key leaves the other keys' values unchanged. -/
theorem dget_dset_ne (d : PyDict) (k k' : String) (v : PyVal) (h : k ≠ k') :
    dget (dset d k v) k' = dget d k' := by
  induction d with
  | nil => simp [dset, dget, h]
  | cons p rest ih =>
      cases p with
      | mk k₀ v₀ =>
          by_cases hk : k₀ = k
          · subst hk
            simp [dset, dget, h]
          · simp [dset, dget, hk, ih]

/-- A backfill step for one field does not disturb another field. -/
theorem dgetD_backfillField_ne (d : PyDict) (k k' : String) (v w : PyVal)
    (h : k ≠ k') : dgetD (backfillField d k v) k' w = dgetD d k' w := by
  unfold backfillField dgetD
  by_cases hm : dmem d k <;> simp [hm, dget_dset_ne _ _ _ _ h]

/-- Backfilling a field with the same default that a later
`.get(field, default)` uses does not change that lookup. -/
theorem dgetD_backfillField_self (d : PyDict) (k : String) (v : PyVal) :
    dgetD (backfillField d k v) k v = dgetD d k v := by
  unfold backfillField dgetD
  by_cases hm : dmem d k
  · simp [hm]
  · rw [if_neg hm, dget_dset_self]
    unfold dmem at hm
    cases hg : dget d k with
    | none => simp
    | some u => rw [hg] at hm; simp at hm

/-- The backfill loop does not change what `float(result_dict.get(
"confidence", 0.8))` sees. -/
theorem backfill_confidence (d : PyDict) :
    dgetD (backfillDiscussion d) "confidence" (.float 0.8) =
    dgetD d "confidence" (.float 0.8) := by
  unfold backfillDiscussion
  rw [dgetD_backfillField_self,
      dgetD_backfillField_ne _ _ _ _ _ (by decide),
      dgetD_backfillField_ne _ _ _ _ _ (by decide),
      dgetD_backfillField_ne _ _ _ _ _ (by decide),
      dgetD_backfillField_ne _ _ _ _ _ (by decide)]

/-- The five required `DiscussionResult` keys. -/
def requiredDiscussionKeys : List String :=
  ["consensus", "final_root_cause", "final_evidence", "final_fix_steps", "confidence"]

def hasRequiredDiscussionKeys (d : PyDict) : Bool :=
  requiredDiscussionKeys.all (fun k => dmem d k)

/-- C5, counterexample: `DiscussionAgent.parse_output` on the response
`5` — valid JSON, so `json.loads` succeeds with a non-dict — raises a
`TypeError` at the `if field not in result_dict` membership test
(discussion.py line 180); only `json.JSONDecodeError` is caught, so the
method does not return a dictionary for every model response text. -/
theorem discussion_parse_nonobject_cex :
    discussionParse "5" = .error "TypeError: argument of type is not iterable" := rfl

/-- C5, amended: the never-raise guarantee holds in two regimes: a
response whose stripped text fails JSON decoding yields exactly the safe
default (`consensus=true`, `confidence=0.5`) with every required key; a
response decoding to a JSON object whose `confidence` (after the
backfill defaulting of missing fields) converts with `float()` yields a
dict with every required `DiscussionResult` key. (Valid non-object JSON,
or a non-convertible `confidence`, raises — see the counterexample.) -/
theorem discussion_parse_total (s : String) :
    (jsonLoads (stripFences s) = Option.none →
        discussionParse s = .ok discussionDefault ∧
        hasRequiredDiscussionKeys discussionDefault = true) ∧
    (∀ d q, jsonLoads (stripFences s) = Option.some (.dict d) →
        pyFloat (dgetD d "confidence" (.float 0.8)) = .ok q →
        ∃ out, discussionParse s = .ok out ∧
          hasRequiredDiscussionKeys out = true) := by
  constructor
  · intro h
    refine ⟨?_, rfl⟩
    simp only [discussionParse, h]
  · intro d q hj hq
    simp only [discussionParse, hj]
    rw [backfill_confidence, hq]
    exact ⟨_, rfl, rfl⟩

/-- C5, witness: a prose response (decode failure) and a well-formed
object response with a convertible confidence. -/
theorem discussion_parse_total_witness :
    (jsonLoads (stripFences "not json") = Option.none ∧
     discussionParse "not json" = .ok discussionDefault ∧
     hasRequiredDiscussionKeys discussionDefault = true) ∧
    (∃ out, discussionParse "\x7b\"confidence\": 1\x7d" = .ok out ∧
        hasRequiredDiscussionKeys out = true) := by
  constructor
  · have h := (discussion_parse_total "not json").1 rfl
    exact ⟨rfl, h.1, h.2⟩
  · exact (discussion_parse_total "\x7b\"confidence\": 1\x7d").2
      [("confidence", .int 1)] ((1 : Int) : Rat) rfl rfl

end MultiAgent

namespace MultiAgent

open PyVal PyJson

/-- Two valid expert results (no `error` key). -/
def exA : PyDict := [("expert_name", .str "hdfs_expert"), ("root_cause", .str "cause A")]

def exB : PyDict := [("expert_name", .str "network_expert"), ("root_cause", .str "cause B")]

def c6Class : PyDict := [("fault_type", .str "datanode_down")]

/-- The discussion input the orchestrator builds when the experts complete
in the order A, B. -/
def c6InputAB : PyDict :=
  [("fault_type", .str "datanode_down"),
   ("expert_results", .list [.dict exA, .dict exB]),
   ("global_context", .dict [])]

def c6JsonAB : String :=
  "\x7b\"consensus\": true, \"final_root_cause\": \"A first\", \"final_evidence\": [], \"final_fix_steps\": [], \"confidence\": 1\x7d"

def c6JsonBA : String :=
  "\x7b\"consensus\": true, \"final_root_cause\": \"B first\", \"final_evidence\": [], \"final_fix_steps\": [], \"confidence\": 1\x7d"

/-- A deterministic model: a pure function of the prompt, answering one
way to the A-then-B discussion prompt and another way to every other
prompt. -/
def c6Llm : String → String :=
  fun p => if p = discussionBuildPrompt c6InputAB then c6JsonAB else c6JsonBA

/-- The merged root cause inside a report. -/
def discussionRootCauseOf : Except String PyDict → String :=
  fun r =>
    match r with
    | .ok rep =>
        match dget rep "discussion" with
        | Option.some (.dict dd) =>
            (match dget dd "final_root_cause" with
             | Option.some (.str s) => s
             | _ => "")
        | _ => ""
    | .error _ => ""

set_option maxRecDepth 4000 in
/-- C6, counterexample: permuting the completion order of the two expert
results changes the final report. `_call_experts_parallel` appends results
in completion order (orchestrator.py line 192), and
`DiscussionAgent.build_prompt` enumerates `expert_results` in list order
(discussion.py line 111), so the two orders produce different discussion
prompts; a deterministic model that answers the two prompts differently
then yields different `DiscussionResult` content (`"A first"` vs
`"B first"` as merged root cause). -/
theorem fanout_order_dependent_cex :
    ([exA, exB].Perm [exB, exA]) ∧
    diagnoseTail c6Class [] [exA, exB] (discussionRun c6Llm) ≠
      diagnoseTail c6Class [] [exB, exA] (discussionRun c6Llm) := by
  refine ⟨List.Perm.swap exB exA [], fun h => ?_⟩
  have h1 : discussionRootCauseOf
      (diagnoseTail c6Class [] [exA, exB] (discussionRun c6Llm)) = "A first" := rfl
  have h2 : discussionRootCauseOf
      (diagnoseTail c6Class [] [exB, exA] (discussionRun c6Llm)) = "B first" := rfl
  rw [h, h2] at h1
  exact absurd h1 (by decide)

/-- C6, amended: what IS order-independent is the collection of expert
results the Discussion Agent receives: permuting the completion order
permutes (as a multiset, leaves invariant) the valid-result list and the
`expert_results` value handed to `DiscussionAgent`; but the prompt — and
hence, through a prompt-sensitive deterministic model, the
`DiscussionResult` content — depends on that order (see the
counterexample). -/
theorem valid_results_perm (xs ys : List PyDict) (h : xs.Perm ys) :
    (validResults xs).Perm (validResults ys) ∧
    ((validResults xs).map PyVal.dict).Perm ((validResults ys).map PyVal.dict) := by
  have hp : (validResults xs).Perm (validResults ys) := h.filter _
  exact ⟨hp, hp.map _⟩

/-- C6, witness: the permutation invariance at the two completion orders
of the counterexample's expert results. -/
theorem valid_results_perm_witness :
    ([exA, exB].Perm [exB, exA]) ∧
    (validResults [exA, exB]).Perm (validResults [exB, exA]) :=
  ⟨List.Perm.swap exB exA [],
   (valid_results_perm [exA, exB] [exB, exA] (List.Perm.swap exB exA [])).1⟩

end MultiAgent

namespace MultiAgent

open PyVal PyJson

/-- A successful Python `dead > 0` comparison forces a numeric operand
and returns its sign test. -/
theorem pyGt_int_zero (a : PyVal) (r : Bool) (h : pyGt a (.int 0) = .ok r) :
    ∃ q, asNum a = Option.some q ∧ r = decide (0 < q) := by
  cases a with
  | int n => refine ⟨(n : Rat), rfl, ?_⟩; simpa [pyGt, asNum] using h.symm
  | float q => refine ⟨q, rfl, ?_⟩; simpa [pyGt, asNum] using h.symm
  | bool b => refine ⟨if b then 1 else 0, rfl, ?_⟩; simpa [pyGt, asNum] using h.symm
  | none => simp [pyGt, asNum] at h
  | str s => simp [pyGt, asNum] at h
  | list l => simp [pyGt, asNum] at h
  | dict d => simp [pyGt, asNum] at h

/-- A successful Python `live + dead` with numeric `dead` forces numeric
`live` and produces exactly their numeric sum. -/
theorem pyAdd_ok_right_num (a b c : PyVal) (qb : Rat) (h : pyAdd a b = .ok c)
    (hb : asNum b = Option.some qb) :
    ∃ qa, asNum a = Option.some qa ∧ asNum c = Option.some (qa + qb) := by
  cases a <;> cases b <;>
    (try (exfalso; simp [pyAdd] at h; done)) <;>
    (try (exfalso; simp [asNum] at hb; done)) <;>
    (simp only [pyAdd, Except.ok.injEq] at h
     subst h
     simp only [asNum, Option.some.injEq] at hb
     subst hb
     refine ⟨_, rfl, ?_⟩
     simp only [asNum, Option.some.injEq]
     try first
       | (split_ifs <;> push_cast <;> try ring)
       | (push_cast; try ring))

/-- C10: whenever `_extract_cluster_state` returns (does not raise), the
returned state satisfies `datanode_count.total = live + dead` (as numbers;
the comparison `dead > 0` and the addition both succeeding force the two
counts numeric), and `hdfs_status = "degraded"` whenever `dead > 0`
(context_collector.py lines 185-195). -/
theorem cluster_state_invariant (metrics : PyDict) (st : PyDict)
    (h : extractClusterState metrics = .ok st) :
    ∃ live dead total hdfs storage,
      st = [("datanode_count", .dict [("live", live), ("dead", dead), ("total", total)]),
            ("hdfs_status", .str hdfs), ("storage", storage)] ∧
      ∃ ql qd, asNum live = Option.some ql ∧ asNum dead = Option.some qd ∧
        asNum total = Option.some (ql + qd) ∧ (0 < qd → hdfs = "degraded") := by
  unfold extractClusterState at h
  cases hm : dget metrics "namenode" with
  | none =>
      rw [hm] at h
      cases h
      refine ⟨.int 0, .int 0, .int 0, "unknown", _, rfl, 0, 0, by simp [asNum],
        by simp [asNum], by simp [asNum], by intro h0; norm_num at h0⟩
  | some nn =>
      rw [hm] at h
      replace h : extractFromNN nn = Except.ok st := h
      unfold extractFromNN at h
      simp only [Bind.bind, Functor.map, pure] at h
      cases hs : pyGetAttrD nn "status" PyVal.none with
      | error e => rw [hs] at h; simp [Except.bind] at h
      | ok status =>
          rw [hs] at h
          simp only [Except.bind] at h
          by_cases he : eqStr status "error" = true
          · simp only [he, if_true] at h
            cases h
            refine ⟨.int 0, .int 0, .int 0, "unknown", _, rfl, 0, 0, by simp [asNum],
              by simp [asNum], by simp [asNum], by intro h0; norm_num at h0⟩
          · simp only [he, if_false] at h
            cases hn : pyGetAttrD nn "metrics" (PyVal.dict []) with
            | error e => rw [hn] at h; simp [Except.bind] at h
            | ok nnm =>
            rw [hn] at h
            simp only [Except.bind] at h
            cases hl : extractCount nnm "live_datanodes" with
            | error e => rw [hl] at h; simp [Except.bind] at h
            | ok live =>
            rw [hl] at h
            simp only [Except.bind] at h
            cases hdd : extractCount nnm "dead_datanodes" with
            | error e => rw [hdd] at h; simp [Except.bind] at h
            | ok dead =>
            rw [hdd] at h
            simp only [Except.bind] at h
            cases ht : pyAdd live dead with
            | error e => rw [ht] at h; simp [Except.bind] at h
            | ok total =>
            rw [ht] at h
            simp only [Except.bind] at h
            cases hg : pyGt dead (PyVal.int 0) with
            | error e => rw [hg] at h; simp [Except.bind] at h
            | ok deg =>
            rw [hg] at h
            simp only [Except.bind] at h
            cases hh : hdfsStatusOf live total deg with
            | error e => rw [hh] at h; simp [Except.bind] at h
            | ok hdfs =>
            rw [hh] at h
            simp only [Except.bind] at h
            cases hr : remainingStorage nnm with
            | error e => rw [hr] at h; simp [Except.bind] at h
            | ok remaining =>
            rw [hr] at h
            simp only [Except.bind] at h
            cases hsp : storageTotals nnm remaining with
            | error e => rw [hsp] at h; simp [Except.map] at h
            | ok sp =>
            rw [hsp] at h
            simp only [Except.map] at h
            cases h
            obtain ⟨qd, hqd, hdeg⟩ := pyGt_int_zero dead deg hg
            obtain ⟨ql, hql, hsum⟩ := pyAdd_ok_right_num live dead total qd ht hqd
            refine ⟨live, dead, total, hdfs, _, rfl, ql, qd, hql, hqd, hsum, ?_⟩
            intro hpos
            cases deg with
            | true =>
                unfold hdfsStatusOf at hh
                simp only [if_true, pure, Except.pure, Except.ok.injEq] at hh
                exact hh.symm
            | false =>
                exfalso
                rw [eq_comm, decide_eq_false_iff_not] at hdeg
                exact hdeg hpos

/-- A NameNode metrics dict with 2 live and 1 dead DataNodes. -/
def c10Metrics : PyDict :=
  [("namenode", .dict
    [("status", .str "ok"),
     ("metrics", .dict
       [("live_datanodes", .dict [("heartbeat_value", .int 2)]),
        ("dead_datanodes", .dict [("heartbeat_value", .int 1)])])])]

/-- C10, witness: the invariant evaluated on a 2-live/1-dead metrics
snapshot (total 3, status degraded). -/
theorem cluster_state_invariant_witness :
    ∃ live dead total hdfs storage,
      (extractClusterState c10Metrics =
        .ok [("datanode_count", .dict [("live", live), ("dead", dead), ("total", total)]),
             ("hdfs_status", .str hdfs), ("storage", storage)]) ∧
      ∃ ql qd, asNum live = Option.some ql ∧ asNum dead = Option.some qd ∧
        asNum total = Option.some (ql + qd) ∧ (0 < qd → hdfs = "degraded") := by
  obtain ⟨live, dead, total, hdfs, storage, hst, rest⟩ :=
    cluster_state_invariant c10Metrics _ rfl
  exact ⟨live, dead, total, hdfs, storage, by rw [← hst]; rfl, rest⟩

end MultiAgent
